import Mathlib

/-! Formal model of the conversation-slot state machine of the
Chatbot-test-center repository (source files: view.py, controller.py,
model.py).  Python dictionaries of the shape role/content are modelled by
the structure Msg; the state of one CreatePrompt widget by PromptView;
the ChatController by a list of PromptView plus the save_prompts flag.
File input/output and the HTTP transport are external collaborators and
enter the model as explicit parameters. -/

/-- A role/content pair, the shape of every prompt dictionary in the
source (model.py, controller.py, view.py). -/
structure Msg where
  role : String
  content : String
deriving DecidableEq

instance : Inhabited Msg := ⟨⟨"", ""⟩⟩

/-- State of one CreatePrompt widget (view.py, class CreatePrompt):
pos is the slot position, txt_lst the variant list, txt_nummer the
cursor, chk_btn_var the activation checkbox (IntVar value 1 on creation),
txt_wdg the text currently displayed in the editable text widget. -/
structure PromptView where
  pos : Nat
  txt_lst : List Msg
  txt_nummer : Nat
  chk_btn_var : Bool
  txt_wdg : String
deriving DecidableEq

instance : Inhabited PromptView := ⟨⟨0, [], 0, true, ""⟩⟩

/-- In-place overwrite of the content of the variant at index i, the
model of the Python statement txt_lst[i]["content"] = c. -/
def setContentAt : List Msg → Nat → String → List Msg
  | [], _, _ => []
  | m :: rest, 0, c => ⟨m.role, c⟩ :: rest
  | m :: rest, n + 1, c => m :: setContentAt rest n c

/-- The variant at the cursor (txt_lst[txt_nummer] in the source). -/
def PromptView.current (v : PromptView) : Msg :=
  v.txt_lst.getD v.txt_nummer default

/-- CreatePrompt.update_prompt (view.py) called with
txt_wdg = txt_lst[txt_nummer]["content"], as every view-level caller
does: the widget text is replaced by the current variant's content.
Python truthiness means an empty content string leaves the widget
unchanged (the `if txt_wdg:` guard). Label updates are not part of the
model.  Calls of update_prompt with no arguments (controller.py) change
nothing and are modelled as the identity. -/
def update_prompt (v : PromptView) : PromptView :=
  if v.current.content = "" then v else { v with txt_wdg := v.current.content }

/-- Constructor CreatePrompt.__init__ (view.py): cursor 0, checkbox on,
widget initially empty and then refreshed from the first variant. -/
def CreatePrompt (pos : Nat) (txt_lst : List Msg) : PromptView :=
  update_prompt { pos := pos, txt_lst := txt_lst, txt_nummer := 0,
                  chk_btn_var := true, txt_wdg := "" }

/-- CreatePrompt.get_prompt (view.py): role of the current variant paired
with the live widget text. -/
def get_prompt (v : PromptView) : Msg :=
  ⟨v.current.role, v.txt_wdg⟩

/-- CreatePrompt.chk_btn_var_show (view.py). -/
def chk_btn_var_show (v : PromptView) : Bool :=
  v.chk_btn_var

/-- CreatePrompt.btn_back_click (view.py): at cursor 0 only a console
message is printed and the display is refreshed; otherwise the live
widget text is written into the variant at the old cursor and the cursor
is decremented, then the display is refreshed. -/
def btn_back_click (v : PromptView) : PromptView :=
  if v.txt_nummer = 0 then
    update_prompt v
  else
    update_prompt { v with txt_lst := setContentAt v.txt_lst v.txt_nummer v.txt_wdg,
                           txt_nummer := v.txt_nummer - 1 }

/-- CreatePrompt.btn_forward_click (view.py): the live widget text is
committed into the current variant; when the cursor is at the last index
a fresh variant with the same role and content "Neu" is appended; in
both cases the cursor is incremented and the display refreshed. -/
def btn_forward_click (v : PromptView) : PromptView :=
  if v.txt_nummer < v.txt_lst.length - 1 then
    update_prompt { v with txt_lst := setContentAt v.txt_lst v.txt_nummer v.txt_wdg,
                           txt_nummer := v.txt_nummer + 1 }
  else
    update_prompt { v with txt_lst := setContentAt v.txt_lst v.txt_nummer v.txt_wdg
                             ++ [⟨v.current.role, "Neu"⟩],
                           txt_nummer := v.txt_nummer + 1 }

theorem setContentAt_length (l : List Msg) (i : Nat) (c : String) :
    (setContentAt l i c).length = l.length := by
  induction l generalizing i with
  | nil => rfl
  | cons m rest ih =>
    cases i with
    | zero => rfl
    | succ n => simp [setContentAt, ih]

theorem setContentAt_getD (l : List Msg) (i : Nat) (c : String) (h : i < l.length) :
    (setContentAt l i c).getD i default = ⟨(l.getD i default).role, c⟩ := by
  induction l generalizing i with
  | nil => simp at h
  | cons m rest ih =>
    cases i with
    | zero => rfl
    | succ n =>
      have hn : n < rest.length := by simpa using h
      simpa [setContentAt] using ih n hn

theorem update_prompt_txt_lst (v : PromptView) :
    (update_prompt v).txt_lst = v.txt_lst := by
  unfold update_prompt
  split <;> rfl

theorem update_prompt_txt_nummer (v : PromptView) :
    (update_prompt v).txt_nummer = v.txt_nummer := by
  unfold update_prompt
  split <;> rfl

/-- Controller state (controller.py, class ChatController): the ordered
list of view objects and the save_prompts flag (set to True in
__init__). -/
structure ChatController where
  view_objects : List PromptView
  save_prompts : Bool
deriving DecidableEq

/-- ChatController.create_view_objects (controller.py): for each seed
variant list a new CreatePrompt widget is appended, the row counter
(which becomes the widget's pos) incrementing from the given start. -/
def create_view_objects : List PromptView → List (List Msg) → Nat → List PromptView
  | vs, [], _ => vs
  | vs, p :: ps, row => create_view_objects (vs ++ [CreatePrompt row p]) ps (row + 1)

/-- ChatController.convert_prompts (controller.py): each item of the
loaded conversation snapshot becomes a singleton variant list. -/
def convert_prompts (json_data : List Msg) : List (List Msg) :=
  json_data.map (fun m => [⟨m.role, m.content⟩])

/-- The prompt-assembly loop at the top of
ChatController.btn_send_callback (controller.py): every view object with
pos at most the sender's pos and an activated checkbox contributes its
get_prompt pair, in list order. -/
def build_prompt (objPos : Nat) : List PromptView → List Msg
  | [] => []
  | v :: vs =>
      if v.pos ≤ objPos ∧ chk_btn_var_show v = true then
        get_prompt v :: build_prompt objPos vs
      else
        build_prompt objPos vs

/-- The commit step inside ChatController.save_all_prompts
(controller.py): the live widget text is written into the current
variant of every slot; the subsequent save_json call is external file
output and carries no in-memory state. -/
def save_all_prompts (vs : List PromptView) : List PromptView :=
  vs.map (fun v => { v with txt_lst := setContentAt v.txt_lst v.txt_nummer v.txt_wdg })

/-- The view objects after the optional persistence step of
btn_send_callback: committed when save_prompts is on, untouched
otherwise. -/
def committed_views (ctrl : ChatController) : List PromptView :=
  if ctrl.save_prompts then save_all_prompts ctrl.view_objects else ctrl.view_objects

/-- Reply insertion into the next view object (controller.py,
btn_send_callback): txt_lst.append(response_prompt) followed by
txt_nummer += 1; the following update_prompt() call has no arguments and
changes nothing. -/
def insert_reply (r : Msg) (v : PromptView) : PromptView :=
  { v with txt_lst := v.txt_lst ++ [r], txt_nummer := v.txt_nummer + 1 }

/-- Replacement of the element at index i, modelling the in-place
mutation of self.view_objects[i]. -/
def modifyViewAt : List PromptView → Nat → (PromptView → PromptView) → List PromptView
  | [], _, _ => []
  | v :: vs, 0, f => f v :: vs
  | v :: vs, n + 1, f => v :: modifyViewAt vs n f

/-- The response text produced by the try/except around
local_chatbot.send_to_ollama in btn_send_callback (controller.py): the
transport's answer on success, the formatted problem message on a raised
exception. -/
def response_of (transport : List Msg → Except String String) (prompt : List Msg) : String :=
  match transport prompt with
  | Except.ok t => t
  | Except.error e => "There was a problem connecting to the bot. Error: " ++ e

/-- The response_prompt dictionary built in btn_send_callback. -/
def reply_of (transport : List Msg → Except String String)
    (ctrl : ChatController) (objPos : Nat) : Msg :=
  ⟨"assistant", response_of transport (build_prompt objPos ctrl.view_objects)⟩

/-- The placeholder user prompt created when sending from the last slot
(controller.py, btn_send_callback). -/
def new_prompt : Msg :=
  ⟨"user", "Def:"⟩

/-- Result of one btn_send_callback run: the Except models whether an
exception escaped the callback (only the persistence step can raise out
of it), and dispatched records whether send_to_ollama was reached. -/
structure SubmitResult where
  outcome : Except String (List PromptView)
  dispatched : Bool

/-- ChatController.btn_send_callback (controller.py).  The persistence
step is external file output; persistOk says whether the save_json calls
succeed.  When save_prompts is on and a save raises, the exception
propagates out of the callback before send_to_ollama is called. -/
def btn_send_callback (transport : List Msg → Except String String) (persistOk : Bool)
    (ctrl : ChatController) (objPos : Nat) : SubmitResult :=
  if ctrl.save_prompts = true ∧ persistOk = false then
    ⟨Except.error "StorageError", false⟩
  else
    if objPos < (committed_views ctrl).length - 1 then
      ⟨Except.ok (modifyViewAt (committed_views ctrl) (objPos + 1)
          (insert_reply (reply_of transport ctrl objPos))), true⟩
    else
      ⟨Except.ok (create_view_objects (committed_views ctrl)
          [[reply_of transport ctrl objPos], [new_prompt]]
          (committed_views ctrl).length), true⟩

/-- The view-object list after a btn_send_callback run that did not
raise (empty when the callback raised). -/
def submitViews (transport : List Msg → Except String String) (persistOk : Bool)
    (ctrl : ChatController) (objPos : Nat) : List PromptView :=
  match (btn_send_callback transport persistOk ctrl objPos).outcome with
  | Except.ok vs => vs
  | Except.error _ => []

/-- Whether a btn_send_callback run completed without raising. -/
def outcome_ok (r : SubmitResult) : Bool :=
  match r.outcome with
  | Except.ok _ => true
  | Except.error _ => false

/-- DataStorage.load_json (model.py) applied to the per-slot file of a
position: an absent file is not an error and yields the empty container;
a present file yields its parsed variant list.  The disk parameter maps
a position to the content of its file, none meaning absent. -/
def load_json_slot (disk : Nat → Option (List Msg)) (pos : Nat) : List Msg :=
  (disk pos).getD []

/-- The inner loop of ChatController.load_all_prompts (controller.py):
for every index of the freshly loaded list whose entry equals the
current get_prompt value, the cursor is set to that index; get_prompt is
re-evaluated against the already replaced list as the cursor moves. -/
def scan_match (v : PromptView) : PromptView :=
  v.txt_lst.enum.foldl
    (fun acc p => if p.2 = get_prompt acc then { acc with txt_nummer := p.1 } else acc) v

/-- One iteration of ChatController.load_all_prompts: the slot's variant
list is replaced by whatever load_json returns for its per-slot file,
then the cursor scan runs; the closing update_prompt() call has no
arguments and changes nothing. -/
def load_one (disk : Nat → Option (List Msg)) (v : PromptView) : PromptView :=
  scan_match { v with txt_lst := load_json_slot disk v.pos }

/-- ChatController.load_all_prompts (controller.py). -/
def load_all_prompts (disk : Nat → Option (List Msg)) (ctrl : ChatController) : ChatController :=
  { ctrl with view_objects := ctrl.view_objects.map (load_one disk) }

/-- LocalChatbot.send_to_ollama (model.py) in test mode: the messages
are ignored and the returned text embeds the value drawn from
random.randint(0, 999999), passed here as the randint parameter. -/
def send_to_ollama_test (_messages : List Msg) (randint : Nat) : String :=
  "Test case: Response nr: " ++ toString randint

theorem save_all_prompts_length (vs : List PromptView) :
    (save_all_prompts vs).length = vs.length := by
  simp [save_all_prompts]

theorem committed_views_length (ctrl : ChatController) :
    (committed_views ctrl).length = ctrl.view_objects.length := by
  unfold committed_views
  split
  · exact save_all_prompts_length ctrl.view_objects
  · rfl

theorem modifyViewAt_getD (l : List PromptView) (i : Nat) (f : PromptView → PromptView)
    (h : i < l.length) :
    (modifyViewAt l i f).getD i default = f (l.getD i default) := by
  induction l generalizing i with
  | nil => simp at h
  | cons v vs ih =>
    cases i with
    | zero => rfl
    | succ n =>
      have hn : n < vs.length := by simpa using h
      simpa [modifyViewAt] using ih n hn

/-- Claim C3: a forward click (advance) at the last index appends exactly
one new variant and the cursor afterwards equals the new last index; a
forward click not at the last index increments the cursor by 1 and
leaves the length of the variant list unchanged. -/
theorem btn_forward_click_spec (v : PromptView) (h : v.txt_nummer < v.txt_lst.length) :
    (v.txt_nummer = v.txt_lst.length - 1 →
      (btn_forward_click v).txt_lst.length = v.txt_lst.length + 1 ∧
      (btn_forward_click v).txt_nummer = (btn_forward_click v).txt_lst.length - 1) ∧
    (v.txt_nummer < v.txt_lst.length - 1 →
      (btn_forward_click v).txt_lst.length = v.txt_lst.length ∧
      (btn_forward_click v).txt_nummer = v.txt_nummer + 1) := by
  unfold btn_forward_click
  constructor
  · intro h1
    have hcond : ¬(v.txt_nummer < v.txt_lst.length - 1) := by omega
    rw [if_neg hcond]
    rw [update_prompt_txt_lst, update_prompt_txt_nummer]
    simp only [List.length_append, setContentAt_length, List.length_singleton]
    exact ⟨trivial, by omega⟩
  · intro h2
    rw [if_pos h2]
    rw [update_prompt_txt_lst, update_prompt_txt_nummer]
    simp [setContentAt_length]

/-- Witness for btn_forward_click_spec at a concrete two-variant slot
with the cursor at index 0: the advance reuses the existing second
variant without appending. -/
theorem btn_forward_click_spec_witness :
    (0 < ([⟨"user", "a"⟩, ⟨"user", "b"⟩] : List Msg).length) ∧
    ((⟨0, [⟨"user", "a"⟩, ⟨"user", "b"⟩], 0, true, "a"⟩ : PromptView).txt_nummer
        = (⟨0, [⟨"user", "a"⟩, ⟨"user", "b"⟩], 0, true, "a"⟩ : PromptView).txt_lst.length - 1 →
      (btn_forward_click ⟨0, [⟨"user", "a"⟩, ⟨"user", "b"⟩], 0, true, "a"⟩).txt_lst.length
          = (⟨0, [⟨"user", "a"⟩, ⟨"user", "b"⟩], 0, true, "a"⟩ : PromptView).txt_lst.length + 1 ∧
      (btn_forward_click ⟨0, [⟨"user", "a"⟩, ⟨"user", "b"⟩], 0, true, "a"⟩).txt_nummer
          = (btn_forward_click ⟨0, [⟨"user", "a"⟩, ⟨"user", "b"⟩], 0, true, "a"⟩).txt_lst.length - 1) ∧
    ((⟨0, [⟨"user", "a"⟩, ⟨"user", "b"⟩], 0, true, "a"⟩ : PromptView).txt_nummer
        < (⟨0, [⟨"user", "a"⟩, ⟨"user", "b"⟩], 0, true, "a"⟩ : PromptView).txt_lst.length - 1 →
      (btn_forward_click ⟨0, [⟨"user", "a"⟩, ⟨"user", "b"⟩], 0, true, "a"⟩).txt_lst.length
          = (⟨0, [⟨"user", "a"⟩, ⟨"user", "b"⟩], 0, true, "a"⟩ : PromptView).txt_lst.length ∧
      (btn_forward_click ⟨0, [⟨"user", "a"⟩, ⟨"user", "b"⟩], 0, true, "a"⟩).txt_nummer
          = (⟨0, [⟨"user", "a"⟩, ⟨"user", "b"⟩], 0, true, "a"⟩ : PromptView).txt_nummer + 1) :=
  ⟨by decide, btn_forward_click_spec ⟨0, [⟨"user", "a"⟩, ⟨"user", "b"⟩], 0, true, "a"⟩ (by decide)⟩

/-- Claim C10: a back click with the cursor above 0 first overwrites the
content of the variant at the old cursor position with the live widget
text (the role there is untouched) and only then decrements the cursor
by 1; no prior commit by the caller is needed. -/
theorem btn_back_click_commit_spec (v : PromptView) (h0 : 0 < v.txt_nummer)
    (hlt : v.txt_nummer < v.txt_lst.length) :
    (btn_back_click v).txt_nummer = v.txt_nummer - 1 ∧
    (btn_back_click v).txt_lst = setContentAt v.txt_lst v.txt_nummer v.txt_wdg ∧
    (btn_back_click v).txt_lst.getD v.txt_nummer default
      = ⟨(v.txt_lst.getD v.txt_nummer default).role, v.txt_wdg⟩ := by
  unfold btn_back_click
  have hcond : ¬(v.txt_nummer = 0) := by omega
  rw [if_neg hcond]
  rw [update_prompt_txt_lst, update_prompt_txt_nummer]
  exact ⟨rfl, rfl, setContentAt_getD v.txt_lst v.txt_nummer v.txt_wdg hlt⟩

/-- Witness for btn_back_click_commit_spec at a concrete slot with two
variants, cursor 1 and live text "edited". -/
theorem btn_back_click_commit_spec_witness :
    (0 < (⟨0, [⟨"user", "a"⟩, ⟨"user", "b"⟩], 1, true, "edited"⟩ : PromptView).txt_nummer) ∧
    ((⟨0, [⟨"user", "a"⟩, ⟨"user", "b"⟩], 1, true, "edited"⟩ : PromptView).txt_nummer
      < (⟨0, [⟨"user", "a"⟩, ⟨"user", "b"⟩], 1, true, "edited"⟩ : PromptView).txt_lst.length) ∧
    ((btn_back_click ⟨0, [⟨"user", "a"⟩, ⟨"user", "b"⟩], 1, true, "edited"⟩).txt_nummer
        = (⟨0, [⟨"user", "a"⟩, ⟨"user", "b"⟩], 1, true, "edited"⟩ : PromptView).txt_nummer - 1 ∧
    (btn_back_click ⟨0, [⟨"user", "a"⟩, ⟨"user", "b"⟩], 1, true, "edited"⟩).txt_lst
        = setContentAt [⟨"user", "a"⟩, ⟨"user", "b"⟩] 1 "edited" ∧
    (btn_back_click ⟨0, [⟨"user", "a"⟩, ⟨"user", "b"⟩], 1, true, "edited"⟩).txt_lst.getD 1 default
        = ⟨(([⟨"user", "a"⟩, ⟨"user", "b"⟩] : List Msg).getD 1 default).role, "edited"⟩) :=
  ⟨by decide, by decide,
   btn_back_click_commit_spec ⟨0, [⟨"user", "a"⟩, ⟨"user", "b"⟩], 1, true, "edited"⟩
     (by decide) (by decide)⟩

/-- Claim C8: slot creation keeps its non-empty seed, a back click never
changes the length of the variant list, a forward click never shrinks
it, reply insertion grows it by exactly one, and hence each of these
operations preserves having at least one variant. -/
theorem variants_never_shrink (ppos : Nat) (seed : List Msg) (v : PromptView) (r : Msg)
    (hseed : seed ≠ []) :
    (CreatePrompt ppos seed).txt_lst = seed ∧
    1 ≤ (CreatePrompt ppos seed).txt_lst.length ∧
    (btn_back_click v).txt_lst.length = v.txt_lst.length ∧
    v.txt_lst.length ≤ (btn_forward_click v).txt_lst.length ∧
    (insert_reply r v).txt_lst.length = v.txt_lst.length + 1 ∧
    (1 ≤ v.txt_lst.length →
      1 ≤ (btn_back_click v).txt_lst.length ∧
      1 ≤ (btn_forward_click v).txt_lst.length ∧
      1 ≤ (insert_reply r v).txt_lst.length) := by
  have hcreate : (CreatePrompt ppos seed).txt_lst = seed := by
    unfold CreatePrompt
    rw [update_prompt_txt_lst]
  have hback : (btn_back_click v).txt_lst.length = v.txt_lst.length := by
    unfold btn_back_click
    split
    · rw [update_prompt_txt_lst]
    · rw [update_prompt_txt_lst]
      exact setContentAt_length v.txt_lst v.txt_nummer v.txt_wdg
  have hfwd : v.txt_lst.length ≤ (btn_forward_click v).txt_lst.length := by
    unfold btn_forward_click
    split
    · rw [update_prompt_txt_lst]
      simp [setContentAt_length]
    · rw [update_prompt_txt_lst]
      simp only [List.length_append, setContentAt_length, List.length_singleton]
      omega
  have hins : (insert_reply r v).txt_lst.length = v.txt_lst.length + 1 := by
    simp [insert_reply]
  refine ⟨hcreate, ?_, hback, hfwd, hins, ?_⟩
  · rw [hcreate]
    exact List.length_pos.mpr hseed
  · intro h1
    exact ⟨by omega, by omega, by omega⟩

/-- Witness for variants_never_shrink at a concrete singleton seed, a
concrete one-variant slot and a concrete reply. -/
theorem variants_never_shrink_witness :
    (([⟨"system", "s"⟩] : List Msg) ≠ []) ∧
    ((CreatePrompt 0 [⟨"system", "s"⟩]).txt_lst = [⟨"system", "s"⟩] ∧
    1 ≤ (CreatePrompt 0 [⟨"system", "s"⟩]).txt_lst.length ∧
    (btn_back_click ⟨0, [⟨"user", "a"⟩], 0, true, "a"⟩).txt_lst.length
        = (⟨0, [⟨"user", "a"⟩], 0, true, "a"⟩ : PromptView).txt_lst.length ∧
    (⟨0, [⟨"user", "a"⟩], 0, true, "a"⟩ : PromptView).txt_lst.length
        ≤ (btn_forward_click ⟨0, [⟨"user", "a"⟩], 0, true, "a"⟩).txt_lst.length ∧
    (insert_reply ⟨"assistant", "hi"⟩ ⟨0, [⟨"user", "a"⟩], 0, true, "a"⟩).txt_lst.length
        = (⟨0, [⟨"user", "a"⟩], 0, true, "a"⟩ : PromptView).txt_lst.length + 1 ∧
    (1 ≤ (⟨0, [⟨"user", "a"⟩], 0, true, "a"⟩ : PromptView).txt_lst.length →
      1 ≤ (btn_back_click ⟨0, [⟨"user", "a"⟩], 0, true, "a"⟩).txt_lst.length ∧
      1 ≤ (btn_forward_click ⟨0, [⟨"user", "a"⟩], 0, true, "a"⟩).txt_lst.length ∧
      1 ≤ (insert_reply ⟨"assistant", "hi"⟩ ⟨0, [⟨"user", "a"⟩], 0, true, "a"⟩).txt_lst.length)) :=
  ⟨by decide,
   variants_never_shrink 0 [⟨"system", "s"⟩] ⟨0, [⟨"user", "a"⟩], 0, true, "a"⟩
     ⟨"assistant", "hi"⟩ (by decide)⟩

/-- Claim C9, counterexample: two test-mode invocations on the same
message list whose random draws differ return different response texts,
so the test-mode transport is not a deterministic function of the
request alone. -/
theorem send_test_mode_not_deterministic :
    send_to_ollama_test [⟨"user", "hi"⟩] 0 ≠ send_to_ollama_test [⟨"user", "hi"⟩] 1 := by
  decide

/-- Claim C9, amended: the test-mode response text is determined solely
by the drawn random number and is independent of the request message
list; two invocations agree exactly when their random draws agree. -/
theorem send_test_mode_depends_only_on_draw (m1 m2 : List Msg) (r : Nat) :
    send_to_ollama_test m1 r = send_to_ollama_test m2 r := rfl

/-- Claim C4: when the transport raises, btn_send_callback does not
raise: the run is identical to a run whose transport successfully
returned the formatted problem message (so the assistant-role reply
carrying the error indicator is inserted exactly as a normal reply
would be), and the callback completes without an escaping exception. -/
theorem btn_send_transport_failure (ctrl : ChatController) (objPos : Nat) (e : String) :
    btn_send_callback (fun _ => Except.error e) true ctrl objPos
      = btn_send_callback
          (fun _ => Except.ok ("There was a problem connecting to the bot. Error: " ++ e))
          true ctrl objPos ∧
    outcome_ok (btn_send_callback (fun _ => Except.error e) true ctrl objPos) = true := by
  have hneg : ¬(ctrl.save_prompts = true ∧ (true : Bool) = false) := by simp
  constructor
  · simp [btn_send_callback, reply_of, response_of]
  · unfold btn_send_callback
    rw [if_neg hneg]
    split <;> rfl

/-- Claim C7: with save_prompts on and a failing persistence step, the
callback stops with the storage exception before the transport is ever
invoked: the outcome is the propagated error and dispatched is false,
for every transport. -/
theorem btn_send_storage_error (transport : List Msg → Except String String)
    (ctrl : ChatController) (objPos : Nat) (h : ctrl.save_prompts = true) :
    (btn_send_callback transport false ctrl objPos).outcome = Except.error "StorageError" ∧
    (btn_send_callback transport false ctrl objPos).dispatched = false := by
  unfold btn_send_callback
  rw [if_pos ⟨h, rfl⟩]
  exact ⟨rfl, rfl⟩

/-- Witness for btn_send_storage_error at a concrete one-slot controller
with save_prompts on. -/
theorem btn_send_storage_error_witness :
    ((⟨[⟨0, [⟨"system", "s"⟩], 0, true, "s"⟩], true⟩ : ChatController).save_prompts = true) ∧
    ((btn_send_callback (fun _ => Except.ok ("hi")) false
        ⟨[⟨0, [⟨"system", "s"⟩], 0, true, "s"⟩], true⟩ 0).outcome
      = Except.error "StorageError" ∧
    (btn_send_callback (fun _ => Except.ok ("hi")) false
        ⟨[⟨0, [⟨"system", "s"⟩], 0, true, "s"⟩], true⟩ 0).dispatched = false) :=
  ⟨by decide,
   btn_send_storage_error (fun _ => Except.ok ("hi"))
     ⟨[⟨0, [⟨"system", "s"⟩], 0, true, "s"⟩], true⟩ 0 (by decide)⟩

/-- The view object at the position following the sender, after the
commit step (self.view_objects[obj.pos + 1] in btn_send_callback). -/
def next_slot (ctrl : ChatController) (objPos : Nat) : PromptView :=
  (committed_views ctrl).getD (objPos + 1) default

theorem submitViews_eq (transport : List Msg → Except String String) (persistOk : Bool)
    (ctrl : ChatController) (objPos : Nat) (vs : List PromptView)
    (h : (btn_send_callback transport persistOk ctrl objPos).outcome = Except.ok vs) :
    submitViews transport persistOk ctrl objPos = vs := by
  unfold submitViews
  rw [h]

/-- A concrete two-slot controller: the second slot holds two variants
with its cursor at index 0 (the user has navigated back). -/
def two_slot_ctrl : ChatController :=
  ⟨[⟨0, [⟨"system", "s"⟩], 0, true, "s"⟩,
    ⟨1, [⟨"user", "a"⟩, ⟨"user", "b"⟩], 0, true, "a"⟩], true⟩

/-- Claim C2, counterexample: sending from slot 0 of two_slot_ctrl
appends the reply as the last element of slot 1's variant list, but slot
1's cursor moves from 0 to 1 while the appended reply sits at index 2 —
the cursor does not point to the appended last variant. -/
theorem btn_send_next_slot_cursor_cex :
    ((submitViews (fun _ => Except.ok ("hi")) true two_slot_ctrl 0).getD 1 default).txt_lst
        = [⟨"user", "a"⟩, ⟨"user", "b"⟩, ⟨"assistant", "hi"⟩] ∧
    ((submitViews (fun _ => Except.ok ("hi")) true two_slot_ctrl 0).getD 1 default).txt_nummer
        = 1 ∧
    ((submitViews (fun _ => Except.ok ("hi")) true two_slot_ctrl 0).getD 1 default).txt_nummer
      ≠ ((submitViews (fun _ => Except.ok ("hi")) true two_slot_ctrl 0).getD 1 default).txt_lst.length
          - 1 := by
  decide

/-- Claim C2, amended: when the sender is not the last slot, the reply
variant is appended as the new last element of the next slot's
(committed) variant list and the next slot's cursor is incremented by
exactly 1; the cursor ends on the appended last variant exactly when it
previously sat at the last index. -/
theorem btn_send_next_slot_spec (transport : List Msg → Except String String)
    (ctrl : ChatController) (objPos : Nat)
    (h : objPos + 1 < ctrl.view_objects.length) :
    (btn_send_callback transport true ctrl objPos).outcome
      = Except.ok (modifyViewAt (committed_views ctrl) (objPos + 1)
          (insert_reply (reply_of transport ctrl objPos))) ∧
    (submitViews transport true ctrl objPos).getD (objPos + 1) default
      = insert_reply (reply_of transport ctrl objPos) (next_slot ctrl objPos) ∧
    (insert_reply (reply_of transport ctrl objPos) (next_slot ctrl objPos)).txt_lst
      = (next_slot ctrl objPos).txt_lst ++ [reply_of transport ctrl objPos] ∧
    (insert_reply (reply_of transport ctrl objPos) (next_slot ctrl objPos)).txt_nummer
      = (next_slot ctrl objPos).txt_nummer + 1 ∧
    ((next_slot ctrl objPos).txt_nummer = (next_slot ctrl objPos).txt_lst.length - 1 →
      0 < (next_slot ctrl objPos).txt_lst.length →
      (insert_reply (reply_of transport ctrl objPos) (next_slot ctrl objPos)).txt_nummer
        = (insert_reply (reply_of transport ctrl objPos) (next_slot ctrl objPos)).txt_lst.length
            - 1) := by
  have hneg : ¬(ctrl.save_prompts = true ∧ (true : Bool) = false) := by simp
  have hcond : objPos < (committed_views ctrl).length - 1 := by
    rw [committed_views_length]
    omega
  have hbound : objPos + 1 < (committed_views ctrl).length := by
    rw [committed_views_length]
    exact h
  have h1 : (btn_send_callback transport true ctrl objPos).outcome
      = Except.ok (modifyViewAt (committed_views ctrl) (objPos + 1)
          (insert_reply (reply_of transport ctrl objPos))) := by
    unfold btn_send_callback
    rw [if_neg hneg, if_pos hcond]
  have h2 : (submitViews transport true ctrl objPos).getD (objPos + 1) default
      = insert_reply (reply_of transport ctrl objPos) (next_slot ctrl objPos) := by
    rw [submitViews_eq transport true ctrl objPos _ h1]
    exact modifyViewAt_getD (committed_views ctrl) (objPos + 1)
      (insert_reply (reply_of transport ctrl objPos)) hbound
  refine ⟨h1, h2, rfl, rfl, ?_⟩
  intro ha hb
  simp only [insert_reply, List.length_append, List.length_singleton]
  omega

/-- Witness for btn_send_next_slot_spec at two_slot_ctrl with a
successful transport. -/
theorem btn_send_next_slot_spec_witness :
    (0 + 1 < two_slot_ctrl.view_objects.length) ∧
    ((btn_send_callback (fun _ => Except.ok ("hi")) true two_slot_ctrl 0).outcome
      = Except.ok (modifyViewAt (committed_views two_slot_ctrl) (0 + 1)
          (insert_reply (reply_of (fun _ => Except.ok ("hi")) two_slot_ctrl 0))) ∧
    (submitViews (fun _ => Except.ok ("hi")) true two_slot_ctrl 0).getD (0 + 1) default
      = insert_reply (reply_of (fun _ => Except.ok ("hi")) two_slot_ctrl 0)
          (next_slot two_slot_ctrl 0) ∧
    (insert_reply (reply_of (fun _ => Except.ok ("hi")) two_slot_ctrl 0)
        (next_slot two_slot_ctrl 0)).txt_lst
      = (next_slot two_slot_ctrl 0).txt_lst
          ++ [reply_of (fun _ => Except.ok ("hi")) two_slot_ctrl 0] ∧
    (insert_reply (reply_of (fun _ => Except.ok ("hi")) two_slot_ctrl 0)
        (next_slot two_slot_ctrl 0)).txt_nummer
      = (next_slot two_slot_ctrl 0).txt_nummer + 1 ∧
    ((next_slot two_slot_ctrl 0).txt_nummer
        = (next_slot two_slot_ctrl 0).txt_lst.length - 1 →
      0 < (next_slot two_slot_ctrl 0).txt_lst.length →
      (insert_reply (reply_of (fun _ => Except.ok ("hi")) two_slot_ctrl 0)
          (next_slot two_slot_ctrl 0)).txt_nummer
        = (insert_reply (reply_of (fun _ => Except.ok ("hi")) two_slot_ctrl 0)
            (next_slot two_slot_ctrl 0)).txt_lst.length - 1)) :=
  ⟨by decide,
   btn_send_next_slot_spec (fun _ => Except.ok ("hi")) two_slot_ctrl 0 (by decide)⟩

theorem create_view_objects_two (vs : List PromptView) (a b : List Msg) (row : Nat) :
    create_view_objects vs [a, b] row
      = vs ++ [CreatePrompt row a, CreatePrompt (row + 1) b] := by
  simp [create_view_objects, List.append_assoc]

/-- Claim C6: sending from the last slot appends exactly two new view
objects after the sequence, the first seeded with the single
assistant-role reply variant and the second seeded with the single
placeholder user variant; the slot count grows by exactly 2 (so one
slot becomes three). -/
theorem btn_send_last_slot_spec (transport : List Msg → Except String String)
    (ctrl : ChatController) (objPos : Nat)
    (_hlen : 0 < ctrl.view_objects.length)
    (hlast : objPos = ctrl.view_objects.length - 1) :
    (btn_send_callback transport true ctrl objPos).outcome
      = Except.ok (committed_views ctrl
          ++ [CreatePrompt (committed_views ctrl).length [reply_of transport ctrl objPos],
              CreatePrompt ((committed_views ctrl).length + 1) [new_prompt]]) ∧
    (submitViews transport true ctrl objPos).length = ctrl.view_objects.length + 2 ∧
    (CreatePrompt (committed_views ctrl).length [reply_of transport ctrl objPos]).txt_lst
      = [reply_of transport ctrl objPos] ∧
    (CreatePrompt ((committed_views ctrl).length + 1) [new_prompt]).txt_lst = [new_prompt] ∧
    (reply_of transport ctrl objPos).role = "assistant" ∧
    new_prompt = ⟨"user", "Def:"⟩ := by
  have hneg : ¬(ctrl.save_prompts = true ∧ (true : Bool) = false) := by simp
  have hcond : ¬(objPos < (committed_views ctrl).length - 1) := by
    rw [committed_views_length]
    omega
  have h1 : (btn_send_callback transport true ctrl objPos).outcome
      = Except.ok (committed_views ctrl
          ++ [CreatePrompt (committed_views ctrl).length [reply_of transport ctrl objPos],
              CreatePrompt ((committed_views ctrl).length + 1) [new_prompt]]) := by
    unfold btn_send_callback
    rw [if_neg hneg, if_neg hcond, create_view_objects_two]
  have h2 : (submitViews transport true ctrl objPos).length
      = ctrl.view_objects.length + 2 := by
    rw [submitViews_eq transport true ctrl objPos _ h1]
    simp [committed_views_length]
  have h3 : (CreatePrompt (committed_views ctrl).length
      [reply_of transport ctrl objPos]).txt_lst = [reply_of transport ctrl objPos] := by
    unfold CreatePrompt
    rw [update_prompt_txt_lst]
  have h4 : (CreatePrompt ((committed_views ctrl).length + 1) [new_prompt]).txt_lst
      = [new_prompt] := by
    unfold CreatePrompt
    rw [update_prompt_txt_lst]
  exact ⟨h1, h2, h3, h4, rfl, rfl⟩

/-- A concrete one-slot controller, the Scenario A start state. -/
def one_slot_ctrl : ChatController :=
  ⟨[⟨0, [⟨"system", "Your name is Jana."⟩], 0, true, "Your name is Jana."⟩], true⟩

/-- Witness for btn_send_last_slot_spec at one_slot_ctrl: Submit(0) on a
single-slot sequence leaves exactly 3 slots. -/
theorem btn_send_last_slot_spec_witness :
    (0 < one_slot_ctrl.view_objects.length) ∧
    (0 = one_slot_ctrl.view_objects.length - 1) ∧
    ((btn_send_callback (fun _ => Except.ok ("reply")) true one_slot_ctrl 0).outcome
      = Except.ok (committed_views one_slot_ctrl
          ++ [CreatePrompt (committed_views one_slot_ctrl).length
                [reply_of (fun _ => Except.ok ("reply")) one_slot_ctrl 0],
              CreatePrompt ((committed_views one_slot_ctrl).length + 1) [new_prompt]]) ∧
    (submitViews (fun _ => Except.ok ("reply")) true one_slot_ctrl 0).length = 1 + 2 ∧
    (CreatePrompt (committed_views one_slot_ctrl).length
        [reply_of (fun _ => Except.ok ("reply")) one_slot_ctrl 0]).txt_lst
      = [reply_of (fun _ => Except.ok ("reply")) one_slot_ctrl 0] ∧
    (CreatePrompt ((committed_views one_slot_ctrl).length + 1) [new_prompt]).txt_lst
      = [new_prompt] ∧
    (reply_of (fun _ => Except.ok ("reply")) one_slot_ctrl 0).role = "assistant" ∧
    new_prompt = ⟨"user", "Def:"⟩) :=
  ⟨by decide, by decide,
   btn_send_last_slot_spec (fun _ => Except.ok ("reply")) one_slot_ctrl 0
     (by decide) (by decide)⟩

theorem build_prompt_eq_filter_map (p : Nat) (slots : List PromptView) :
    build_prompt p slots
      = (slots.filter (fun v => decide (v.pos ≤ p ∧ chk_btn_var_show v = true))).map
          get_prompt := by
  induction slots with
  | nil => rfl
  | cons v vs ih =>
    by_cases hv : v.pos ≤ p ∧ chk_btn_var_show v = true
    · simp [build_prompt, List.filter_cons, hv, ih]
    · simp [build_prompt, List.filter_cons, hv, ih]

/-- Claim C5: the assembled request consists exactly of the get_prompt
pairs of the slots whose position is at most the sender's position and
whose checkbox is activated, in list order; when the slot positions are
strictly increasing the emitted slots are in increasing position order;
every included slot satisfies both conditions, every slot satisfying
both conditions is included, and a slot with position above the bound is
excluded regardless of its checkbox. -/
theorem build_prompt_spec (p : Nat) (slots : List PromptView)
    (hsort : List.Pairwise (fun a b => a.pos < b.pos) slots) :
    build_prompt p slots
      = (slots.filter (fun v => decide (v.pos ≤ p ∧ chk_btn_var_show v = true))).map
          get_prompt ∧
    List.Pairwise (fun a b => a.pos < b.pos)
      (slots.filter (fun v => decide (v.pos ≤ p ∧ chk_btn_var_show v = true))) ∧
    (∀ v ∈ slots, v.pos ≤ p → chk_btn_var_show v = true →
      get_prompt v ∈ build_prompt p slots) ∧
    (∀ v : PromptView, p < v.pos →
      v ∉ slots.filter (fun v => decide (v.pos ≤ p ∧ chk_btn_var_show v = true))) := by
  refine ⟨build_prompt_eq_filter_map p slots, List.Pairwise.filter _ hsort, ?_, ?_⟩
  · intro v hv hp hc
    rw [build_prompt_eq_filter_map]
    exact List.mem_map_of_mem get_prompt
      (List.mem_filter.mpr ⟨hv, by simp [hp, hc]⟩)
  · intro v hp hmem
    have hcond := (List.mem_filter.mp hmem).2
    simp only [decide_eq_true_eq] at hcond
    omega

/-- A concrete three-slot list: positions 0, 1, 2; the middle slot is
deactivated (Scenario B shape). -/
def scenario_slots : List PromptView :=
  [⟨0, [⟨"system", "s"⟩], 0, true, "s"⟩,
   ⟨1, [⟨"user", "a"⟩], 0, false, "a"⟩,
   ⟨2, [⟨"user", "b"⟩], 0, true, "b"⟩]

/-- Witness for build_prompt_spec at scenario_slots with bound 1: the
deactivated slot 1 and the out-of-range slot 2 are excluded. -/
theorem build_prompt_spec_witness :
    (List.Pairwise (fun a b => a.pos < b.pos) scenario_slots) ∧
    (build_prompt 1 scenario_slots
      = (scenario_slots.filter
          (fun v => decide (v.pos ≤ 1 ∧ chk_btn_var_show v = true))).map get_prompt ∧
    List.Pairwise (fun a b => a.pos < b.pos)
      (scenario_slots.filter (fun v => decide (v.pos ≤ 1 ∧ chk_btn_var_show v = true))) ∧
    (∀ v ∈ scenario_slots, v.pos ≤ 1 → chk_btn_var_show v = true →
      get_prompt v ∈ build_prompt 1 scenario_slots) ∧
    (∀ v : PromptView, 1 < v.pos →
      v ∉ scenario_slots.filter
        (fun v => decide (v.pos ≤ 1 ∧ chk_btn_var_show v = true)))) :=
  ⟨by decide, build_prompt_spec 1 scenario_slots (by decide)⟩

/-- The controller start state of Scenario A: one slot seeded from the
conversation snapshot through convert_prompts and create_view_objects,
save_prompts on (as in ChatController.__init__). -/
def seeded_ctrl : ChatController :=
  ⟨create_view_objects [] (convert_prompts [⟨"system", "Your name is Jana."⟩]) 0, true⟩

/-- Claim C1: with the per-slot file of every slot absent on disk,
load_all_prompts raises nothing and leaves the cursor untouched, but it
does NOT keep the freshly seeded single variant: the slot's variant list
is overwritten with the empty container that load_json returns for an
absent file, so the seed variant is lost and the list becomes empty. -/
theorem load_all_prompts_absent_file_drops_seed :
    (load_all_prompts (fun _ => none) seeded_ctrl).view_objects.map PromptView.txt_lst
      = [[]] ∧
    seeded_ctrl.view_objects.map PromptView.txt_lst
      = [[⟨"system", "Your name is Jana."⟩]] ∧
    (load_all_prompts (fun _ => none) seeded_ctrl).view_objects.map PromptView.txt_nummer
      = seeded_ctrl.view_objects.map PromptView.txt_nummer := by
  decide
